import Mathlib

/-!
Verification of the registration/morphing core of the scikit-shapes repository.

The development shallowly embeds the code of
  skshapes/tasks/registration.py      (Registration: fit / transform)
  skshapes/morphing/kernel_deformation.py  (KernelDeformation: morph, parameter_shape)
  skshapes/morphing/kernels.py        (GaussianKernel)
  skshapes/types.py                   (MorphingOutput, device handling)
Tensors are modelled as rational-valued nested lists carrying a device tag and a
requires_grad flag; the external float functions (exp, sqrt) of the kernel are
taken as function parameters.  Python exceptions are modelled with an error
type and Except; in-place mutation of a caller-visible tensor is modelled by
returning the post-call state of that tensor explicitly.
-/

/-- Torch devices, as used by registration.py (torch.device of cuda or cpu). -/
inductive Device where
  | cpu : Device
  | cuda : Device
deriving DecidableEq

/-- The device argument of Registration: the string auto, or an explicit device. -/
inductive DeviceArg where
  | auto : DeviceArg
  | explicitDev : Device → DeviceArg
deriving DecidableEq

/-- Device resolution of Registration.init, registration.py lines 26-29:
if device is auto, torch.device of cuda if torch.cuda.is_available else cpu.
The availability of cuda is an input. -/
def resolveDevice (d : DeviceArg) (cuda_is_available : Bool) : Device :=
  match d with
  | .auto => if cuda_is_available then .cuda else .cpu
  | .explicitDev dev => dev

/-- A torch tensor: rational entries as a list of rows, a device tag, and the
requires_grad flag of its autograd state. -/
structure Tensor where
  data : List (List ℚ)
  device : Device
  requiresGrad : Bool
deriving DecidableEq

/-- torch detach: same values and device, gradient tracking off. -/
def Tensor.detach (t : Tensor) : Tensor :=
  { t with requiresGrad := false }

/-- torch to(device): a copy of the tensor on the given device. -/
def Tensor.to (t : Tensor) (d : Device) : Tensor :=
  { t with device := d }

/-- torch clone: an independent copy with the same values, device and flags. -/
def Tensor.clone (t : Tensor) : Tensor := t

/-- The shape (rows, columns) of a 2-dimensional tensor. -/
def Tensor.shape (t : Tensor) : Nat × Nat :=
  (t.data.length, (t.data.headD []).length)

/-- torch zeros(shape, device): zero-filled tensor, gradient tracking off. -/
def torch.zeros (s : Nat × Nat) (d : Device) : Tensor :=
  { data := List.replicate s.1 (List.replicate s.2 (0 : ℚ))
    device := d
    requiresGrad := false }

/-- A scalar torch tensor (0-dimensional), as returned by losses and kernels. -/
structure Scalar where
  val : ℚ
  device : Device
  requiresGrad : Bool
deriving DecidableEq

/-- torch detach for scalars. -/
def Scalar.detach (s : Scalar) : Scalar :=
  { s with requiresGrad := false }

/-- Modelled from the spec: the Shape (PolyData) class of skshapes/data is absent
from the sources; the spec describes it as an opaque geometric object exposing a
point-position tensor, a device identifier, copy() as a deep clone, and
to(device) as a device-moved clone.  Points are an N x d tensor. -/
structure Shape where
  points : Tensor
deriving DecidableEq

/-- Modelled from the spec: the device of a shape is where its points reside. -/
def Shape.device (s : Shape) : Device := s.points.device

/-- Modelled from the spec: copy() is a deep clone; with value semantics the
clone has the same components. -/
def Shape.copy (s : Shape) : Shape := s

/-- Modelled from the spec: to(device) is a device-moved clone. -/
def Shape.to (s : Shape) (d : Device) : Shape :=
  { points := s.points.to d }

/-- Modelled from the spec: the spatial dimension of a shape (2 or 3), the
column count of its point tensor. -/
def Shape.dim (s : Shape) : Nat := (s.points.data.headD []).length

/-- Python exceptions that the embedded code can raise. -/
inductive PyErr where
  | typeError : PyErr
  | attributeError : PyErr
  | notImplementedError : PyErr
  | zeroDivisionError : PyErr
  | userError : PyErr
deriving DecidableEq

/-- MorphingOutput, types.py lines 280-318: container of the result of a
morphing algorithm, all fields optional and defaulting to absent. -/
structure MorphingOutput where
  morphed_shape : Option Shape
  regularization : Option Scalar
  path : Option (List Shape)
  path_length : Option Scalar
deriving DecidableEq

/-- Modelled from the spec: the MorphingOutput imported by the morphing code
from skshapes/morphing/utils.py is absent from the sources (types.py holds a
duplicate plain class); the morphing docstring describes the result as a named
tuple of morphed shape, regularization and path in that order, so integer
subscript 1, which registration.py applies to the morph result, selects the
regularization field. -/
def MorphingOutput.getitem1 (out : MorphingOutput) : Option Scalar :=
  out.regularization

/-- Call-trace events: attempted invocations of Model.morph with its two flag
arguments and the parameter it was handed, and invocations of the loss. -/
inductive Event where
  | morphCall : Bool → Bool → Tensor → Event
  | lossCall : Event
deriving DecidableEq

/-- The deformation-model interface used by Registration: parameter_shape and
morph(shape, parameter, return_path, return_regularization).  Either call can
raise. -/
structure Model where
  parameter_shape : Shape → Except PyErr (Nat × Nat)
  morph : Shape → Tensor → Bool → Bool → Except PyErr MorphingOutput

/-- Modelled from the spec: the Integrator of skshapes/morphing/utils.py is
absent from the sources; the spec describes it as a single-step state
transition taking momentum, position, a hamiltonian and a time step to an
updated momentum and position. -/
def Integrator : Type :=
  Tensor → Tensor → (Tensor → Tensor → ℚ) → ℚ → Tensor × Tensor

/-- Dot product of two rational vectors. -/
def dot (a b : List ℚ) : ℚ := (List.zipWith (fun x y => x * y) a b).sum

/-- GaussianKernel call, kernels.py lines 26-55: rescale q by sqrt(2) times
sigma, build the symbolic kernel matrix Kq of exponentials of negated squared
distances, multiply by p, and return the scalar product of p with Kq p.  The
external float functions are parameters: expF is exp, sqrt2 is sqrt(2). -/
def GaussianKernel (expF : ℚ → ℚ) (sqrt2 : ℚ) (sigma : ℚ) (p q : Tensor) : ℚ :=
  let qd := q.data.map (fun row => row.map (fun x => x / (sqrt2 * sigma)))
  let Kq := qd.map (fun qi => qd.map (fun qj =>
    expF (-((List.zipWith (fun a b => (a - b) ^ 2) qi qj).sum))))
  let d := (p.data.headD []).length
  let Kqp := Kq.map (fun row =>
    (List.zipWith (fun c pj => pj.map (fun x => c * x)) row p.data).foldr
      (fun v acc => List.zipWith (fun x y => x + y) v acc)
      (List.replicate d (0 : ℚ)))
  (List.zipWith dot p.data Kqp).sum

/-- KernelDeformation, kernel_deformation.py lines 25-57: integrator and kernel
are injected strategies (defaults EulerIntegrator and GaussianKernel live in
code absent from the sources); the cometric is the kernel inner product of a
momentum with itself at given positions, as a rational value whose device
placement is handled at the point of use. -/
structure KernelDeformation where
  integrator : Integrator
  cometric : Tensor → Tensor → ℚ
  n_steps : Nat
  control_points : Option Unit
  n_grid : Nat

/-- Lines 86-90 of kernel_deformation.py: the working momentum p, moved to the
shape's device when the devices differ, with requires_grad set to true. -/
def kdP1 (shape : Shape) (parameter : Tensor) : Tensor :=
  { (if parameter.device ≠ shape.device then parameter.to shape.device
     else parameter) with requiresGrad := true }

/-- Lines 92-93: q is a clone of the shape's points with requires_grad true. -/
def kdQ0 (shape : Shape) : Tensor :=
  { shape.points.clone with requiresGrad := true }

/-- The post-call state of the caller's parameter tensor: when the devices
differ, p is a fresh tensor and the caller's parameter is untouched; when they
agree, p aliases the parameter, so setting requires_grad on p mutates it. -/
def kdPostParam (shape : Shape) (parameter : Tensor) : Tensor :=
  if parameter.device ≠ shape.device then parameter else kdP1 shape parameter

/-- One pass of the integration loop body as a state transition on (p, q),
with the hamiltonian of line 101-102 (half the cometric). -/
def kdStep (kd : KernelDeformation) (dt : ℚ) (s : Tensor × Tensor) : Tensor × Tensor :=
  kd.integrator s.1 s.2 (fun p q => kd.cometric p q / 2) dt

/-- The integration loop of lines 111-114: k iterations remaining, i the
current index; each iteration advances (p, q) by the integrator and, when the
path is requested, overwrites entry i+1 of the path with a shape holding a
clone of the new q. -/
def kdLoop (kd : KernelDeformation) (dt : ℚ) (return_path : Bool) :
    Nat → Nat → Tensor → Tensor → List Shape → Tensor × Tensor × List Shape
  | 0, _, p, q, path => (p, q, path)
  | Nat.succ k, i, p, q, path =>
    let pq := kd.integrator p q (fun p q => kd.cometric p q / 2) dt
    let path2 := if return_path then path.set (i + 1) { points := pq.2.clone }
                 else path
    kdLoop kd dt return_path k (i + 1) pq.1 pq.2 path2

/-- KernelDeformation.morph, kernel_deformation.py lines 59-123.  The first
component is the returned MorphingOutput (or the raised exception); the second
component is the post-call state of the caller's parameter tensor, recording
the in-place requires_grad assignment of line 90.  The regularization is the
placeholder zero scalar on the shape's device, replaced when requested by half
the cometric of the passed parameter at the initial positions q (lines 95-98).
The time step 1 / n_steps of line 104 raises ZeroDivisionError when n_steps is
zero.  When the path is requested it starts as n_steps + 1 copies of the shape
(line 109); the loop then fills entries 1 through n_steps.  The morphed shape
is a copy of the input shape whose points are the final q (lines 116-117). -/
def KernelDeformation.morph (kd : KernelDeformation) (shape : Shape)
    (parameter : Tensor) (return_path : Bool) (return_regularization : Bool) :
    Except PyErr MorphingOutput × Tensor :=
  let p := kdP1 shape parameter
  let q := kdQ0 shape
  let regularization : Scalar :=
    if return_regularization then
      { val := kd.cometric parameter q / 2, device := shape.device
        requiresGrad := true }
    else { val := 0, device := shape.device, requiresGrad := false }
  if kd.n_steps = 0 then (.error .zeroDivisionError, kdPostParam shape parameter)
  else
    let dt : ℚ := 1 / (kd.n_steps : ℚ)
    let path0 : List Shape :=
      if return_path then List.replicate (kd.n_steps + 1) shape.copy else []
    let res := kdLoop kd dt return_path kd.n_steps 0 p q path0
    let morphed_shape : Shape := { points := res.2.1 }
    (.ok { morphed_shape := some morphed_shape
           regularization := some regularization
           path := if return_path then some res.2.2 else none
           path_length := none },
     kdPostParam shape parameter)

/-- KernelDeformation.parameter_shape, lines 125-146: without control points,
the shape of the point tensor; with grid control points, the grid size squared
or cubed by the dimension; any other dimension falls through returning None,
which the return-type check rejects. -/
def KernelDeformation.parameter_shape (kd : KernelDeformation) (shape : Shape) :
    Except PyErr (Nat × Nat) :=
  match kd.control_points with
  | none => .ok shape.points.shape
  | some _ =>
    if shape.dim = 2 then .ok (kd.n_grid ^ 2, 2)
    else if shape.dim = 3 then .ok (kd.n_grid ^ 3, 3)
    else .error .typeError

/-- A KernelDeformation packaged under the model interface used by
Registration; the post-call parameter state is not part of that interface. -/
def KernelDeformation.toModel (kd : KernelDeformation) : Model :=
  { parameter_shape := fun s => kd.parameter_shape s
    morph := fun s p rp rr => (kd.morph s p rp rr).1 }

/-- The optimizer argument of Registration: a recognized torch optimizer
constructor whose external per-iteration update rewrites the parameter data in
place (device and autograd state untouched by in-place updates), or an
unrecognized selector that is not callable. -/
inductive OptimizerSel where
  | torchOptimizer : (Nat → List (List ℚ) → List (List ℚ)) → OptimizerSel
  | notCallable : OptimizerSel

/-- Registration, registration.py lines 6-29: model, loss, optimizer,
regularization weight, iteration count and resolved device.  The verbose flag
only drives printing and is omitted. -/
structure Registration where
  model : Model
  loss : Shape → Shape → Scalar
  optimizer : OptimizerSel
  regularization : ℚ
  n_iter : Nat
  device : Device

/-- Registration construction, lines 7-29: stores the strategies and resolves
the device argument once, auto preferring cuda when available. -/
def Registration.init (model : Model) (loss : Shape → Shape → Scalar)
    (optimizer : OptimizerSel) (regularization : ℚ) (n_iter : Nat)
    (device : DeviceArg) (cuda_is_available : Bool) : Registration :=
  { model := model
    loss := loss
    optimizer := optimizer
    regularization := regularization
    n_iter := n_iter
    device := resolveDevice device cuda_is_available }

/-- The attributes that fit assigns on the Registration object; absent before
any assignment, so that reading them raises AttributeError. -/
structure RegAttrs where
  parameter : Option Tensor
  distance : Option Scalar
deriving DecidableEq

/-- The attribute state of a freshly constructed Registration. -/
def regAttrsInit : RegAttrs := { parameter := none, distance := none }

/-- Lines 37-41 and 101-104 of registration.py: move a shape to the target
device when its device differs. -/
def movedTo (s : Shape) (d : Device) : Shape :=
  if s.device ≠ d then s.to d else s

/-- The objective of Registration.fit, lines 44-57: request the regularization
from morph only when the weight is nonzero; the returned value is the loss of
the morphed shape against the target plus the weight times the regularization.
Python evaluation order: the morph call, then the loss call, then the product,
which raises TypeError when the regularization field is None (a number times
None) - the product is formed even when the weight is zero.  The second
component is the trace of attempted morph and loss invocations. -/
def loss_fn (r : Registration) (source target : Shape) (parameter : Tensor) :
    Except PyErr Scalar × List Event :=
  let return_regularization := if r.regularization = 0 then false else true
  match r.model.morph source parameter false return_regularization with
  | .error e => (.error e, [.morphCall false return_regularization parameter])
  | .ok morphing =>
    match morphing.morphed_shape with
    | none => (.error .typeError, [.morphCall false return_regularization parameter])
    | some ms =>
      let lval := r.loss ms target
      match morphing.regularization with
      | none => (.error .typeError,
                 [.morphCall false return_regularization parameter, .lossCall])
      | some regS =>
        (.ok { val := lval.val + r.regularization * regS.val
               device := lval.device
               requiresGrad := lval.requiresGrad || regS.requiresGrad },
         [.morphCall false return_regularization parameter, .lossCall])

/-- The optimization loop of lines 67-78: k steps remaining, i the iteration
index.  Each optimizer step invokes the closure (zero_grad, the objective,
backward) on the current parameter and then applies the optimizer's in-place
update to the parameter data; an exception from the closure aborts fit. -/
def runSteps (r : Registration) (source target : Shape)
    (upd : Nat → List (List ℚ) → List (List ℚ)) :
    Nat → Nat → Tensor → Except PyErr Tensor × List Event
  | 0, _, p => (.ok p, [])
  | Nat.succ k, i, p =>
    match loss_fn r source target p with
    | (.error e, tr) => (.error e, tr)
    | (.ok _, tr) =>
      let p2 := { p with data := upd i p.data }
      let rec2 := runSteps r source target upd k (i + 1) p2
      (rec2.1, tr ++ rec2.2)

/-- The tail of Registration.fit, lines 80-89: store the detached final
parameter, then recompute morph once more with return_regularization true on
the final (undetached) parameter, subscript the result at 1 and detach it into
the distance attribute.  Subscripting yields the regularization field; when
that field is None, detaching it raises AttributeError.  Returns the outcome,
the post-call attribute state, and the full call trace. -/
def fitFinish (r : Registration) (attrs0 : RegAttrs) (source : Shape)
    (p : Tensor) (tr : List Event) :
    Except PyErr Unit × RegAttrs × List Event :=
  let attrs1 := { attrs0 with parameter := some p.detach }
  match r.model.morph source p false true with
  | .error e => (.error e, attrs1, tr ++ [.morphCall false true p])
  | .ok out =>
    match MorphingOutput.getitem1 out with
    | none => (.error .attributeError, attrs1, tr ++ [.morphCall false true p])
    | some regS =>
      (.ok (), { attrs1 with distance := some regS.detach },
       tr ++ [.morphCall false true p])

/-- Registration.fit, lines 31-89: move source and target to the resolved
device, compute the parameter shape from the model, allocate the
zero-initialized parameter with gradient tracking on the device, construct the
optimizer (calling an unrecognized selector raises TypeError before any
closure runs), run n_iter optimizer steps, then store the final parameter and
the recomputed distance.  Returns the outcome, the post-call attribute state
and the trace of morph and loss invocations. -/
def Registration.fit (r : Registration) (attrs0 : RegAttrs)
    (source0 target0 : Shape) : Except PyErr Unit × RegAttrs × List Event :=
  let source := movedTo source0 r.device
  let target := movedTo target0 r.device
  match r.model.parameter_shape source with
  | .error e => (.error e, attrs0, [])
  | .ok ps =>
    let parameter := { torch.zeros ps r.device with requiresGrad := true }
    match r.optimizer with
    | .notCallable => (.error .typeError, attrs0, [])
    | .torchOptimizer upd =>
      match runSteps r source target upd r.n_iter 0 parameter with
      | (.error e, tr) => (.error e, attrs0, tr)
      | (.ok p, tr) => fitFinish r attrs0 source p tr

/-- Registration.transform, lines 91-93: reading self.parameter raises
AttributeError when fit has not assigned it; otherwise morph the given source
with the stored parameter (flags at their defaults, both false) and return the
morphed shape field. -/
def Registration.transform (r : Registration) (attrs : RegAttrs)
    (source : Shape) : Except PyErr (Option Shape) :=
  match attrs.parameter with
  | none => .error .attributeError
  | some p =>
    match r.model.morph source p false false with
    | .error e => .error e
    | .ok out => .ok out.morphed_shape

/-- A trivial integrator used to instantiate the pluggable integrator slot in
concrete evaluations: it returns the state unchanged. -/
def idIntegrator : Integrator := fun p q _ _ => (p, q)

/-- A concrete two-point planar shape on the cpu. -/
def shapeA : Shape :=
  { points := { data := [[0, 0], [1, 0]], device := .cpu, requiresGrad := false } }

/-- A concrete momentum tensor on the cpu, gradient tracking off. -/
def pA : Tensor := { data := [[1, 1], [0, 0]], device := .cpu, requiresGrad := false }

/-- A concrete kernel deformation model with one integration step, the
trivial integrator and a constant-zero cometric. -/
def kd0 : KernelDeformation :=
  { integrator := idIntegrator
    cometric := fun _ _ => 0
    n_steps := 1
    control_points := none
    n_grid := 10 }

/-- C5: KernelDeformation.morph is a pure function of its inputs.  Corrected:
the call leaves the input shape untouched and builds the morphed shape from a
clone of its points, but when the parameter already resides on the shape's
device the working momentum aliases it and line 90 sets the caller's
requires_grad flag to true in place; only a parameter on a different device is
left unmutated.  This theorem characterizes the post-call state of the
caller's parameter tensor. -/
theorem C5_thm (kd : KernelDeformation) (shape : Shape) (parameter : Tensor)
    (rp rr : Bool) :
    (kd.morph shape parameter rp rr).2 =
      if parameter.device ≠ shape.device then parameter
      else { parameter with requiresGrad := true } := by
  by_cases h0 : kd.n_steps = 0 <;>
    by_cases h : parameter.device ≠ shape.device <;>
      simp [KernelDeformation.morph, kdPostParam, kdP1, h0, h]

/-- C5 counterexample: with the parameter on the shape's device and gradient
tracking off, the call mutates the parameter's autograd state, so the claim
that morph does not mutate the passed-in parameter tensor fails. -/
theorem C5_cex : (kd0.morph shapeA pA false false).2 ≠ pA := by decide

/-- C6: with return_regularization true, the returned regularization is half
the cometric of the passed momentum at the initial positions (the clone of the
shape's points, before any integration step), for every number of steps and
every integrator: it is not accumulated along the path.  Confirmed. -/
theorem C6_thm (kd : KernelDeformation) (shape : Shape) (parameter : Tensor)
    (rp : Bool) (out : MorphingOutput)
    (h : (kd.morph shape parameter rp true).1 = .ok out) :
    out.regularization =
      some { val := kd.cometric parameter (kdQ0 shape) / 2
             device := shape.device
             requiresGrad := true } := by
  by_cases h0 : kd.n_steps = 0
  · simp [KernelDeformation.morph, h0] at h
  · simp [KernelDeformation.morph, h0] at h
    rw [← h]

/-- C6 witness: a Gaussian-kernel deformation (external exp and sqrt taken as
the constant-one function and one) on a one-point shape, evaluated. -/
def kdG : KernelDeformation :=
  { integrator := idIntegrator
    cometric := GaussianKernel (fun _ => 1) 1 1
    n_steps := 1
    control_points := none
    n_grid := 10 }

/-- A one-point shape at the origin on the cpu. -/
def shapeG : Shape :=
  { points := { data := [[0, 0]], device := .cpu, requiresGrad := false } }

/-- A one-point momentum. -/
def pG : Tensor := { data := [[1, 2]], device := .cpu, requiresGrad := false }

/-- The morph output of kdG on shapeG with pG, regularization requested. -/
def outC6 : MorphingOutput :=
  { morphed_shape := some { points := { data := [[0, 0]], device := .cpu, requiresGrad := true } }
    regularization := some { val := GaussianKernel (fun _ => 1) 1 1 pG (kdQ0 shapeG) / 2
                             device := .cpu, requiresGrad := true }
    path := none
    path_length := none }

theorem C6_wit :
    (kdG.morph shapeG pG false true).1 = .ok outC6 ∧
    outC6.regularization = some { val := (5 : ℚ) / 2, device := .cpu, requiresGrad := true } := by
  refine ⟨rfl, ?_⟩
  refine (C6_thm kdG shapeG pG false outC6 rfl).trans ?_
  norm_num [kdG, GaussianKernel, dot, pG, shapeG, kdQ0, Tensor.clone, Shape.device,
    List.replicate]

/-- C9: with return_regularization false, the regularization field is never
None: it carries the placeholder zero scalar on the shape's device (line 96),
so the weighted sum formed by the registration objective is well defined even
when the energy was not requested.  Confirmed. -/
theorem C9_thm (kd : KernelDeformation) (shape : Shape) (parameter : Tensor)
    (rp : Bool) (out : MorphingOutput)
    (h : (kd.morph shape parameter rp false).1 = .ok out) :
    out.regularization =
      some { val := 0, device := shape.device, requiresGrad := false } := by
  by_cases h0 : kd.n_steps = 0
  · simp [KernelDeformation.morph, h0] at h
  · simp [KernelDeformation.morph, h0] at h
    rw [← h]

/-- The morph output of kd0 on shapeA with pA, regularization not requested. -/
def outC9 : MorphingOutput :=
  { morphed_shape := some { points := { data := [[0, 0], [1, 0]], device := .cpu, requiresGrad := true } }
    regularization := some { val := 0, device := .cpu, requiresGrad := false }
    path := none
    path_length := none }

theorem C9_wit :
    (kd0.morph shapeA pA false false).1 = .ok outC9 ∧
    outC9.regularization = some { val := 0, device := .cpu, requiresGrad := false } := by
  exact ⟨rfl, C9_thm kd0 shapeA pA false outC9 rfl⟩

/-- The integration loop advances the momentum-position pair by iterating the
single-step transition, independently of the path bookkeeping. -/
theorem kdLoop_state (kd : KernelDeformation) (dt : ℚ) (rp : Bool) :
    ∀ (k i : Nat) (p q : Tensor) (path : List Shape),
      ((kdLoop kd dt rp k i p q path).1, (kdLoop kd dt rp k i p q path).2.1) =
        (kdStep kd dt)^[k] (p, q)
  | 0, _, _, _, _ => by simp [kdLoop]
  | Nat.succ k, i, p, q, path => by
    simp only [kdLoop, Function.iterate_succ_apply]
    exact kdLoop_state kd dt rp k (i + 1) _ _ _

/-- The integration loop preserves the length of the path list. -/
theorem kdLoop_len (kd : KernelDeformation) (dt : ℚ) (rp : Bool) :
    ∀ (k i : Nat) (p q : Tensor) (path : List Shape),
      (kdLoop kd dt rp k i p q path).2.2.length = path.length
  | 0, _, _, _, _ => rfl
  | Nat.succ k, i, p, q, path => by
    simp only [kdLoop]
    rw [kdLoop_len kd dt rp k (i + 1)]
    cases rp <;> simp [List.length_set]

/-- With the path requested, after k loop iterations starting at index i the
path entries i+1 through i+k hold clones of the successive positions, and all
other entries are untouched. -/
theorem kdLoop_path (kd : KernelDeformation) (dt : ℚ) :
    ∀ (k i : Nat) (p q : Tensor) (path : List Shape) (j : Nat),
      i + k < path.length →
      (kdLoop kd dt true k i p q path).2.2[j]? =
        (if i + 1 ≤ j ∧ j ≤ i + k
         then some { points := (((kdStep kd dt)^[j - i]) (p, q)).2.clone }
         else path[j]?) := by
  intro k
  induction k with
  | zero =>
    intro i p q path j hlen
    rw [if_neg (by omega)]
    rfl
  | succ k ih =>
    intro i p q path j hlen
    simp only [kdLoop, if_true]
    rw [ih (i + 1) _ _ _ j (by simp only [List.length_set]; omega)]
    rcases Nat.lt_or_ge j (i + 1) with hj | hj
    · rw [if_neg (by omega), if_neg (by omega), List.getElem?_set_ne (by omega)]
    · rcases Nat.eq_or_lt_of_le hj with hj1 | hj2
      · subst hj1
        rw [if_neg (by omega), if_pos (by omega),
          List.getElem?_set_eq_of_lt _ (by omega)]
        have h1 : i + 1 - i = 1 := by omega
        rw [h1, Function.iterate_one]
        rfl
      · by_cases h2 : j ≤ i + (k + 1)
        · rw [if_pos (by omega), if_pos (by omega)]
          have hji : j - i = (j - (i + 1)) + 1 := by omega
          rw [hji, Function.iterate_succ_apply]
          rfl
        · rw [if_neg (by omega), if_neg (by omega), List.getElem?_set_ne (by omega)]

/-- C7: with return_path true the returned path has n_steps + 1 entries: entry
0 is the copy of the input shape holding the initial point positions, and
entry i+1 holds (a clone of) the positions after integration step i, that is
after i+1 applications of the single-step transition; with return_path false
the path field is None.  Each entry is built by copy of the shape and clone of
the step positions, hence structurally independent.  Confirmed. -/
theorem C7_thm (kd : KernelDeformation) (shape : Shape) (parameter : Tensor)
    (rr : Bool) (out outNoPath : MorphingOutput) :
    ((kd.morph shape parameter true rr).1 = .ok out →
      out.path = some (Shape.copy shape ::
        (List.range kd.n_steps).map (fun i =>
          { points := (((kdStep kd (1 / (kd.n_steps : ℚ)))^[i + 1])
              (kdP1 shape parameter, kdQ0 shape)).2.clone }))) ∧
    ((kd.morph shape parameter false rr).1 = .ok outNoPath →
      outNoPath.path = none) := by
  constructor
  · intro h
    by_cases h0 : kd.n_steps = 0
    · simp [KernelDeformation.morph, h0] at h
    · simp only [KernelDeformation.morph, h0, if_false, if_true, ite_false,
        ite_true] at h
      injection h with h
      rw [← h]
      simp only [Option.some.injEq]
      refine List.ext_getElem? (fun j => ?_)
      rw [kdLoop_path kd _ kd.n_steps 0 _ _ _ j
        (by simp only [List.length_replicate]; omega)]
      rcases j with _ | jj
      · rw [if_neg (by omega)]
        rw [List.getElem?_replicate]
        simp
      · by_cases hj : jj < kd.n_steps
        · rw [if_pos (by omega)]
          simp only [List.getElem?_cons_succ, List.getElem?_map,
            List.getElem?_range hj, Option.map_some', Nat.sub_zero]
        · rw [if_neg (by omega)]
          rw [List.getElem?_replicate, if_neg (by omega)]
          simp only [List.getElem?_cons_succ, List.getElem?_map]
          rw [List.getElem?_eq_none (by simp only [List.length_range]; omega)]
          rfl
  · intro h
    by_cases h0 : kd.n_steps = 0
    · simp [KernelDeformation.morph, h0] at h
    · simp only [KernelDeformation.morph, h0, if_false, if_true, ite_false,
        ite_true] at h
      injection h with h
      rw [← h]
      simp

/-- The morph output of kd0 on shapeA with pA, path requested. -/
def outC7 : MorphingOutput :=
  { morphed_shape := some { points := { data := [[0, 0], [1, 0]], device := .cpu, requiresGrad := true } }
    regularization := some { val := 0, device := .cpu, requiresGrad := false }
    path := some [shapeA,
      { points := { data := [[0, 0], [1, 0]], device := .cpu, requiresGrad := true } }]
    path_length := none }

theorem C7_wit :
    (outC7.path = some (Shape.copy shapeA ::
      (List.range kd0.n_steps).map (fun i =>
        { points := (((kdStep kd0 (1 / (kd0.n_steps : ℚ)))^[i + 1])
            (kdP1 shapeA pA, kdQ0 shapeA)).2.clone }))) ∧
    outC9.path = none :=
  ⟨(C7_thm kd0 shapeA pA false outC7 outC9).1 rfl,
   (C7_thm kd0 shapeA pA false outC7 outC9).2 rfl⟩

/-- A moved shape resides on the target device. -/
theorem movedTo_device (s : Shape) (d : Device) : (movedTo s d).device = d := by
  unfold movedTo
  by_cases h : s.device = d
  · rw [if_neg (not_not_intro h)]
    exact h
  · rw [if_pos h]
    rfl

/-- Optimizer steps only rewrite the parameter data: a successful run leaves
the device and the gradient flag of the parameter unchanged. -/
theorem runSteps_device (r : Registration) (source target : Shape)
    (upd : Nat → List (List ℚ) → List (List ℚ)) :
    ∀ (k i : Nat) (p pOut : Tensor) (tr : List Event),
      runSteps r source target upd k i p = (.ok pOut, tr) →
      pOut.device = p.device ∧ pOut.requiresGrad = p.requiresGrad
  | 0, i, p, pOut, tr => by
    intro h
    simp only [runSteps, Prod.mk.injEq, Except.ok.injEq] at h
    rw [← h.1]
    exact ⟨rfl, rfl⟩
  | Nat.succ k, i, p, pOut, tr => by
    intro h
    simp only [runSteps] at h
    split at h
    · simp at h
    · rcases hrec : runSteps r source target upd k (i + 1)
        { p with data := upd i p.data } with ⟨res2, tr2⟩
      rw [hrec] at h
      simp only [Prod.mk.injEq] at h
      have := runSteps_device r source target upd k (i + 1)
        { p with data := upd i p.data } pOut tr2 (by rw [hrec, h.1])
      simpa using this

/-- The regularization scalar returned by KernelDeformation.morph is placed on
the shape's device. -/
theorem morph_reg_device (kd : KernelDeformation) (s : Shape) (p : Tensor)
    (rp rr : Bool) (out : MorphingOutput) (regS : Scalar)
    (h : (kd.morph s p rp rr).1 = .ok out)
    (hreg : out.regularization = some regS) : regS.device = s.device := by
  by_cases h0 : kd.n_steps = 0
  · simp [KernelDeformation.morph, h0] at h
  · simp only [KernelDeformation.morph, h0, if_false, if_true, ite_false,
      ite_true] at h
    injection h with h
    rw [← h] at hreg
    simp only [Option.some.injEq] at hreg
    rw [← hreg]
    cases rr <;> rfl

/-- Decomposition of a successful Registration.fit run: the parameter shape
came back, the optimizer selector was a recognized constructor, the n_iter
optimizer steps succeeded with some final parameter and loop trace, the
post-loop morph with return_regularization true succeeded, its subscript-1
field was present, and the stored attributes and the full trace are as the
tail of fit builds them. -/
theorem fit_ok_decomp (r : Registration) (attrs0 : RegAttrs) (s0 t0 : Shape)
    (attrs : RegAttrs) (tr : List Event)
    (h : Registration.fit r attrs0 s0 t0 = (.ok (), attrs, tr)) :
    ∃ ps upd p loopTr out regS,
      r.model.parameter_shape (movedTo s0 r.device) = .ok ps ∧
      r.optimizer = .torchOptimizer upd ∧
      runSteps r (movedTo s0 r.device) (movedTo t0 r.device) upd r.n_iter 0
        { torch.zeros ps r.device with requiresGrad := true } = (.ok p, loopTr) ∧
      r.model.morph (movedTo s0 r.device) p false true = .ok out ∧
      MorphingOutput.getitem1 out = some regS ∧
      attrs = { parameter := some p.detach, distance := some regS.detach } ∧
      tr = loopTr ++ [Event.morphCall false true p] := by
  simp only [Registration.fit] at h
  split at h
  · simp at h
  · rename_i ps hps
    split at h
    · simp at h
    · rename_i upd hopt
      split at h
      · simp at h
      · rename_i p loopTr hrs
        simp only [fitFinish] at h
        split at h
        · simp at h
        · rename_i out hm
          split at h
          · simp at h
          · rename_i regS hg
            simp only [Prod.mk.injEq] at h
            exact ⟨ps, upd, p, loopTr, out, regS, hps, hopt, hrs, hm, hg,
              h.2.1.symm, h.2.2.symm⟩

/-- A stub loss returning a fixed scalar, used by concrete runs. -/
def stubLoss : Shape → Shape → Scalar :=
  fun _ _ => { val := 0, device := .cpu, requiresGrad := true }

/-- A stub model whose morph succeeds but never populates the regularization
field, exercising the claim that a zero weight tolerates its absence. -/
def noRegModel : Model :=
  { parameter_shape := fun s => .ok s.points.shape
    morph := fun s _ _ _ =>
      .ok { morphed_shape := some s
            regularization := none
            path := none
            path_length := none } }

/-- A stub model whose morph raises exactly when the regularization is
requested, and otherwise returns the shape with a placeholder energy. -/
def failOnRegModel : Model :=
  { parameter_shape := fun s => .ok s.points.shape
    morph := fun s _ _ rr =>
      if rr then .error .userError
      else
        .ok { morphed_shape := some s
              regularization := some { val := 0, device := s.device, requiresGrad := false }
              path := none
              path_length := none } }

/-- A stub model whose morph always succeeds with a populated regularization. -/
def goodModel : Model :=
  { parameter_shape := fun s => .ok s.points.shape
    morph := fun s _ _ _ =>
      .ok { morphed_shape := some s
            regularization := some { val := 1, device := s.device, requiresGrad := true }
            path := none
            path_length := none } }

/-- The zero-initialized 2 x 2 parameter with gradient tracking, as fit
allocates it for shapeA on the cpu. -/
def pzT : Tensor := { torch.zeros (2, 2) Device.cpu with requiresGrad := true }

/-- The output of the no-regularization stub model on shapeA. -/
def outNoReg : MorphingOutput :=
  { morphed_shape := some shapeA
    regularization := none
    path := none
    path_length := none }

/-- C1: corrected.  With weight exactly zero the objective does call morph
with return_regularization false (first conjunct: the trace of one objective
evaluation starts with that call), but the claim that the regularization term
is omitted from the sum fails: the objective still forms weight times the
regularization field, so when a model leaves that field absent the objective
(and hence fit) raises a type error instead of succeeding (second conjunct). -/
theorem C1_thm (r : Registration) (source target : Shape) (parameter : Tensor)
    (h : r.regularization = 0) :
    (∃ rest, (loss_fn r source target parameter).2 =
      Event.morphCall false false parameter :: rest) ∧
    (∀ out ms, r.model.morph source parameter false false = .ok out →
      out.morphed_shape = some ms → out.regularization = none →
      (loss_fn r source target parameter).1 = .error .typeError) := by
  have hrr : (if r.regularization = 0 then false else true) = false := if_pos h
  constructor
  · simp only [loss_fn, hrr]
    rcases hmo : r.model.morph source parameter false false with e | mo
    · exact ⟨[], by simp [hmo]⟩
    · rcases mo with ⟨msO, regO, pathO, plO⟩
      rcases msO with _ | ms
      · exact ⟨[], by simp [hmo]⟩
      · rcases regO with _ | regS
        · exact ⟨[.lossCall], by simp [hmo]⟩
        · exact ⟨[.lossCall], by simp [hmo]⟩
  · intro out ms hm hms hreg
    simp [loss_fn, hrr, hm, hms, hreg]

/-- A registration with zero weight over the stub model lacking the
regularization field. -/
def regC1 : Registration :=
  { model := noRegModel, loss := stubLoss
    optimizer := .torchOptimizer (fun _ d => d)
    regularization := 0, n_iter := 1, device := .cpu }

/-- C1 counterexample: with weight zero and a model whose output has no
regularization, the objective was invoked with return_regularization false
and ran the loss, yet fit raises a type error from multiplying the weight by
the absent field - fit does not succeed. -/
theorem C1_cex :
    (Registration.fit regC1 regAttrsInit shapeA shapeA).1 = .error .typeError ∧
    (Registration.fit regC1 regAttrsInit shapeA shapeA).2.2 =
      [Event.morphCall false false pzT, Event.lossCall] :=
  ⟨rfl, rfl⟩

theorem C1_wit :
    (∃ rest, (loss_fn regC1 shapeA shapeA pzT).2 =
      Event.morphCall false false pzT :: rest) ∧
    (loss_fn regC1 shapeA shapeA pzT).1 = .error .typeError := by
  have h := C1_thm regC1 shapeA shapeA pzT rfl
  exact ⟨h.1, h.2 outNoReg shapeA rfl rfl rfl⟩

/-- C2: after the optimizer steps, fit invokes morph exactly once more with
return_regularization true on the final parameter (the trace is the loop trace
followed by precisely that one call) and stores that call's subscript-1 value,
the regularization, detached, as the distance: the distance is re-evaluated,
not reused from the last closure.  Confirmed; the subscript semantics of the
result container comes from the spec-modelled named tuple. -/
theorem C2_thm (r : Registration) (attrs0 : RegAttrs) (s0 t0 : Shape)
    (attrs : RegAttrs) (tr : List Event)
    (h : Registration.fit r attrs0 s0 t0 = (.ok (), attrs, tr)) :
    ∃ p loopTr out regS,
      tr = loopTr ++ [Event.morphCall false true p] ∧
      attrs.parameter = some p.detach ∧
      r.model.morph (movedTo s0 r.device) p false true = .ok out ∧
      MorphingOutput.getitem1 out = some regS ∧
      attrs.distance = some regS.detach := by
  obtain ⟨ps, upd, p, loopTr, out, regS, hps, hopt, hrs, hm, hg, hattrs, htr⟩ :=
    fit_ok_decomp r attrs0 s0 t0 attrs tr h
  exact ⟨p, loopTr, out, regS, htr, by rw [hattrs], hm, hg, by rw [hattrs]⟩

/-- A registration over the always-succeeding stub model, one iteration. -/
def regC2 : Registration :=
  { model := goodModel, loss := stubLoss
    optimizer := .torchOptimizer (fun _ d => d)
    regularization := 1, n_iter := 1, device := .cpu }

theorem C2_wit :
    ∃ p loopTr out regS,
      (Registration.fit regC2 regAttrsInit shapeA shapeA).2.2 =
        loopTr ++ [Event.morphCall false true p] ∧
      (Registration.fit regC2 regAttrsInit shapeA shapeA).2.1.parameter =
        some p.detach ∧
      regC2.model.morph (movedTo shapeA regC2.device) p false true = .ok out ∧
      MorphingOutput.getitem1 out = some regS ∧
      (Registration.fit regC2 regAttrsInit shapeA shapeA).2.1.distance =
        some regS.detach :=
  C2_thm regC2 regAttrsInit shapeA shapeA
    (Registration.fit regC2 regAttrsInit shapeA shapeA).2.1
    (Registration.fit regC2 regAttrsInit shapeA shapeA).2.2 rfl

/-- C3: corrected.  With an unrecognized optimizer selector, fit does fail
before any objective work (the call trace is empty: neither the model nor the
loss was ever invoked), but the failure is the generic type error raised by
calling the non-callable selector, not an explicit not-implemented-strategy
error: registration.py contains no such check. -/
theorem C3_thm (r : Registration) (attrs0 : RegAttrs) (s t : Shape)
    (ps : Nat × Nat)
    (hopt : r.optimizer = .notCallable)
    (hps : r.model.parameter_shape (movedTo s r.device) = .ok ps) :
    Registration.fit r attrs0 s t = (.error .typeError, attrs0, []) := by
  simp only [Registration.fit, hps, hopt]

/-- A registration carrying an unrecognized optimizer selector. -/
def regC3 : Registration :=
  { model := goodModel, loss := stubLoss
    optimizer := .notCallable
    regularization := 1, n_iter := 3, device := .cpu }

/-- C3 counterexample: the raised error is a type error, which is not the
not-implemented-strategy error the claim requires. -/
theorem C3_cex :
    Registration.fit regC3 regAttrsInit shapeA shapeA =
      (.error .typeError, regAttrsInit, []) ∧
    PyErr.typeError ≠ PyErr.notImplementedError :=
  ⟨rfl, by decide⟩

theorem C3_wit :
    Registration.fit regC3 regAttrsInit shapeA shapeA =
      (.error .typeError, regAttrsInit, []) :=
  C3_thm regC3 regAttrsInit shapeA shapeA (2, 2) rfl rfl

/-- C4: with n_iter zero a successful fit performs no optimizer step (the
trace holds only the single post-loop morph call, no loss invocation) and the
stored parameter is the zero tensor of the model's parameter shape for the
device-moved source.  Confirmed. -/
theorem C4_thm (r : Registration) (attrs0 : RegAttrs) (s0 t0 : Shape)
    (attrs : RegAttrs) (tr : List Event)
    (hn : r.n_iter = 0)
    (h : Registration.fit r attrs0 s0 t0 = (.ok (), attrs, tr)) :
    ∃ ps, r.model.parameter_shape (movedTo s0 r.device) = .ok ps ∧
      attrs.parameter = some (torch.zeros ps r.device) ∧
      tr = [Event.morphCall false true
        { torch.zeros ps r.device with requiresGrad := true }] := by
  obtain ⟨ps, upd, p, loopTr, out, regS, hps, hopt, hrs, hm, hg, hattrs, htr⟩ :=
    fit_ok_decomp r attrs0 s0 t0 attrs tr h
  rw [hn] at hrs
  have h0 : runSteps r (movedTo s0 r.device) (movedTo t0 r.device) upd 0 0
      { torch.zeros ps r.device with requiresGrad := true } =
      (.ok { torch.zeros ps r.device with requiresGrad := true }, []) := rfl
  rw [h0] at hrs
  simp only [Prod.mk.injEq, Except.ok.injEq] at hrs
  refine ⟨ps, hps, ?_, ?_⟩
  · rw [hattrs, ← hrs.1]
    rfl
  · rw [htr, ← hrs.2, ← hrs.1]
    rfl

/-- A registration over the always-succeeding stub model, zero iterations. -/
def regC4 : Registration :=
  { model := goodModel, loss := stubLoss
    optimizer := .torchOptimizer (fun _ d => d)
    regularization := 1, n_iter := 0, device := .cpu }

theorem C4_wit :
    ∃ ps, regC4.model.parameter_shape (movedTo shapeA regC4.device) = .ok ps ∧
      (Registration.fit regC4 regAttrsInit shapeA shapeA).2.1.parameter =
        some (torch.zeros ps regC4.device) ∧
      (Registration.fit regC4 regAttrsInit shapeA shapeA).2.2 =
        [Event.morphCall false true
          { torch.zeros ps regC4.device with requiresGrad := true }] :=
  C4_thm regC4 regAttrsInit shapeA shapeA
    (Registration.fit regC4 regAttrsInit shapeA shapeA).2.1
    (Registration.fit regC4 regAttrsInit shapeA shapeA).2.2 rfl rfl

/-- C8: after a successful fit of a Registration built over a kernel
deformation model, the stored parameter and distance both reside on the
resolved device (the explicit one, or for auto the accelerator when available
and the cpu otherwise), whatever devices the input shapes came from.
Confirmed. -/
theorem C8_thm (kd : KernelDeformation) (lossF : Shape → Shape → Scalar)
    (upd : Nat → List (List ℚ) → List (List ℚ)) (w : ℚ) (n : Nat)
    (dArg : DeviceArg) (avail : Bool) (attrs0 : RegAttrs) (s0 t0 : Shape)
    (attrs : RegAttrs) (tr : List Event)
    (h : Registration.fit
      (Registration.init kd.toModel lossF (.torchOptimizer upd) w n dArg avail)
      attrs0 s0 t0 = (.ok (), attrs, tr)) :
    ∃ p d, attrs.parameter = some p ∧ attrs.distance = some d ∧
      p.device = resolveDevice dArg avail ∧ d.device = resolveDevice dArg avail := by
  obtain ⟨ps, upd', p, loopTr, out, regS, hps, hopt, hrs, hm, hg, hattrs, htr⟩ :=
    fit_ok_decomp _ attrs0 s0 t0 attrs tr h
  refine ⟨p.detach, regS.detach, by rw [hattrs], by rw [hattrs], ?_, ?_⟩
  · have hd := (runSteps_device _ _ _ _ _ _ _ _ _ hrs).1
    simpa [Tensor.detach, torch.zeros, Registration.init] using hd
  · have hm' : (kd.morph
        (movedTo s0 (resolveDevice dArg avail)) p false true).1 = .ok out := by
      simpa [KernelDeformation.toModel, Registration.init] using hm
    have hr := morph_reg_device kd _ p false true out regS hm'
      (by simpa [MorphingOutput.getitem1] using hg)
    rw [Scalar.detach]
    simpa [movedTo_device] using hr

/-- A registration built over the concrete kernel deformation kd0, resolved
with the auto device and no accelerator available. -/
def regC8 : Registration :=
  Registration.init kd0.toModel stubLoss (.torchOptimizer (fun _ d => d))
    1 1 .auto false

theorem C8_wit :
    ∃ p d,
      (Registration.fit regC8 regAttrsInit shapeA shapeA).2.1.parameter = some p ∧
      (Registration.fit regC8 regAttrsInit shapeA shapeA).2.1.distance = some d ∧
      p.device = resolveDevice .auto false ∧
      d.device = resolveDevice .auto false :=
  C8_thm kd0 stubLoss (fun _ d => d) 1 1 .auto false regAttrsInit shapeA shapeA
    (Registration.fit regC8 regAttrsInit shapeA shapeA).2.1
    (Registration.fit regC8 regAttrsInit shapeA shapeA).2.2 rfl

/-- C10: corrected.  On a freshly constructed Registration the parameter
attribute is unset, so transform raises an attribute error (this theorem).
But the claim's extension to every fit that never completed successfully
fails: fit stores the parameter before the final distance computation, so a
fit that raises there leaves the parameter set and a later transform can
silently succeed (see the counterexample). -/
theorem C10_thm (r : Registration) (source : Shape) :
    Registration.transform r regAttrsInit source = .error .attributeError := rfl

/-- A registration whose model raises exactly when the regularization is
requested: its fit survives the loop with weight zero but fails at the final
distance morph, after the parameter attribute was already stored. -/
def regC10 : Registration :=
  { model := failOnRegModel, loss := stubLoss
    optimizer := .torchOptimizer (fun _ d => d)
    regularization := 0, n_iter := 0, device := .cpu }

/-- C10 counterexample: this fit raises (it never completes successfully), yet
the subsequent transform on the resulting attribute state returns a morphed
shape instead of raising an attribute error. -/
theorem C10_cex :
    (Registration.fit regC10 regAttrsInit shapeA shapeA).1 = .error .userError ∧
    Registration.transform regC10
      (Registration.fit regC10 regAttrsInit shapeA shapeA).2.1 shapeA =
      .ok (some shapeA) :=
  ⟨rfl, rfl⟩
